import Mathlib

/-! Verification of `script.js` (workshop website behaviours).

A shallow embedding of the event handlers of `src/script.js` and the
properties of the specification that are settled on it.

Modelling conventions

* A DOM attribute read with `getAttribute` is an `Option String`
  (`none` is JavaScript `null`, returned when the attribute is absent).
* `classList` is the ordered list of class tokens of an element;
  `classList.remove` deletes a token, `classList.add` appends it when it is
  not yet present, `classList.contains` is membership.
* `offsetTop`, `offsetHeight` and `window.scrollY` are integers.
* Inline style properties are strings.
* Time is counted in milliseconds as a natural number.
-/

namespace Script

/-! ## JavaScript primitives used by the handlers -/

/-- String conversion applied by `+` to a value that is a string or `null`. -/
def jsToString : Option String → String
  | some s => s
  | none => "null"

/-- Behaviour of `classList.remove(token)`. -/
def classListRemove (classList : List String) (token : String) : List String :=
  classList.filter (fun c => c != token)

/-- Behaviour of `classList.add(token)`. -/
def classListAdd (classList : List String) (token : String) : List String :=
  if classList.contains token then classList else classList ++ [token]

/-! ## Active navigation (`initActiveNavigation`) -/

/-- An element matched by `.section`: the values the handler reads from it. -/
structure Section where
  /-- Result of `section.getAttribute('id')`. -/
  id : Option String
  offsetTop : Int
  offsetHeight : Int
  deriving DecidableEq, Repr

/-- An element matched by `.navigation a`. -/
structure NavItem where
  /-- Result of `item.getAttribute('href')`. -/
  href : Option String
  classList : List String
  deriving DecidableEq, Repr

/-- The test `item.classList.contains('active')`. -/
def NavItem.isActive (item : NavItem) : Bool :=
  item.classList.contains "active"

/-- The condition of line 56:
`scrollPos >= sectionTop && scrollPos < sectionTop + sectionHeight`. -/
def inView (scrollPos : Int) (s : Section) : Bool :=
  decide (scrollPos ≥ s.offsetTop) && decide (scrollPos < s.offsetTop + s.offsetHeight)

/-- Body of `sections.forEach` (lines 52-59): one iteration acting on the
local variable `currentSection`. -/
def sectionStep (scrollPos : Int) (currentSection : Option String) (s : Section) :
    Option String :=
  if inView scrollPos s then s.id else currentSection

/-- Lines 49-59: the value of `currentSection` after the loop over the
sections; it starts as the empty string. -/
def findCurrentSection (sections : List Section) (scrollY : Int) : Option String :=
  sections.foldl (sectionStep (scrollY + 150)) (some "")

/-- Body of `navItems.forEach` (lines 62-67) for one item. -/
def updateNavItem (currentSection : Option String) (item : NavItem) : NavItem :=
  let cleared := { item with classList := classListRemove item.classList "active" }
  if item.href = some ("#" ++ jsToString currentSection) then
    { cleared with classList := classListAdd cleared.classList "active" }
  else cleared

/-- State owned by `initActiveNavigation`: the navigation links, the
`ticking` flag and the number of `updateActiveSection` callbacks handed to
`requestAnimationFrame` that have not run yet. -/
structure NavState where
  navItems : List NavItem
  ticking : Bool
  pendingFrames : Nat
  deriving DecidableEq, Repr

/-- The function `updateActiveSection` (lines 48-70). -/
def updateActiveSection (sections : List Section) (scrollY : Int) (st : NavState) :
    NavState :=
  let currentSection := findCurrentSection sections scrollY
  { st with
    navItems := st.navItems.map (updateNavItem currentSection)
    ticking := false }

/-- The function `onScroll` (lines 72-77). -/
def onScroll (st : NavState) : NavState :=
  if !st.ticking then
    { st with pendingFrames := st.pendingFrames + 1, ticking := true }
  else st

/-- State right after `initActiveNavigation` has run (lines 41-83):
`ticking` is `false`, nothing is scheduled, and `updateActiveSection` has
been called once. -/
def initActiveNavigation (sections : List Section) (scrollY : Int)
    (navItems : List NavItem) : NavState :=
  updateActiveSection sections scrollY
    { navItems := navItems, ticking := false, pendingFrames := 0 }

/-- What can happen to the navigation tracker after initialisation. -/
inductive NavEvent where
  /-- A `scroll` event is dispatched while `window.scrollY` has the given value. -/
  | scroll (scrollY : Int)
  /-- The browser runs the oldest pending animation-frame callback. -/
  | frame
  deriving DecidableEq, Repr

/-- One event of the tracker. The window scroll position is carried along
with the tracker state. -/
def navStep (sections : List Section) (w : Int × NavState) : NavEvent → Int × NavState
  | .scroll y => (y, onScroll w.2)
  | .frame =>
    if w.2.pendingFrames = 0 then w
    else (w.1, updateActiveSection sections w.1
            { w.2 with pendingFrames := w.2.pendingFrames - 1 })

/-- Run a sequence of events from the state left by `initActiveNavigation`. -/
def navRun (sections : List Section) (scrollY : Int) (navItems : List NavItem)
    (events : List NavEvent) : Int × NavState :=
  events.foldl (navStep sections) (scrollY, initActiveNavigation sections scrollY navItems)

/-! ## Entrance animations (`initAnimations`) -/

/-- An element of the page. Elements are identified by their position in
the page (document order); `parent` is the identity of `parentElement`.
The root element, the only one without a parent element, is not listed (it
is assumed to carry none of the classes the script selects); an identity
that is not a position of the page stands for it. -/
structure Element where
  classList : List String
  parent : Nat
  /-- Inline `style.opacity`. -/
  opacity : String
  /-- Inline `style.transform`. -/
  transform : String
  /-- Inline `style.transition`. -/
  transition : String
  deriving DecidableEq, Repr

/-- The condition of lines 105-107. -/
def isCard (element : Element) : Bool :=
  element.classList.contains "organizer-card" ||
  element.classList.contains "speaker-card" ||
  element.classList.contains "committee-member"

/-- The selector list of lines 127-133. -/
def isAnimated (el : Element) : Bool :=
  el.classList.contains "organizer-card" ||
  el.classList.contains "speaker-card" ||
  el.classList.contains "timeline-item" ||
  el.classList.contains "committee-member" ||
  el.classList.contains "subsection"

/-- Apply `f` to the element at position `n`, if there is one. -/
def modifyNth (f : Element → Element) : List Element → Nat → List Element
  | [], _ => []
  | x :: xs, 0 => f x :: xs
  | x :: xs, n + 1 => x :: modifyNth f xs n

/-- The value of `Array.from(p.children)`: the elements whose parent is `p`,
in document order. -/
def childrenOf (page : List Element) (p : Nat) : List Nat :=
  (List.range page.length).filter (fun i => (page[i]?).map Element.parent == some p)

/-- The two assignments of lines 113-114 and 117-118. -/
def revealStyle (el : Element) : Element :=
  { el with opacity := "1", transform := "translateY(0)" }

/-- The three assignments of lines 136-138. -/
def hiddenStyle (el : Element) : Element :=
  { el with
    opacity := "0"
    transform := "translateY(30px)"
    transition := "opacity 0.6s ease, transform 0.6s ease" }

/-- An `IntersectionObserverEntry`: the fields the callback reads. -/
structure Entry where
  target : Nat
  isIntersecting : Bool
  deriving DecidableEq, Repr

/-- A timer created by `setTimeout` in the observer callback: the element
its closure reveals and the delay it was given. -/
structure RevealTimer where
  target : Nat
  delay : Nat
  deriving DecidableEq, Repr

/-- State touched by `initAnimations` and its callbacks. `handled` records,
in order, the targets for which the intersecting branch (lines 102-121) ran. -/
structure AnimState where
  page : List Element
  /-- Whether `new IntersectionObserver` has been evaluated. -/
  observerConstructed : Bool
  /-- The observation targets of the observer. -/
  observed : List Nat
  /-- Timers set by the callback that have not fired yet. -/
  timers : List RevealTimer
  handled : List Nat
  deriving DecidableEq, Repr

/-- Body of `entries.forEach` in the observer callback (lines 100-123). -/
def handleEntry (st : AnimState) (entry : Entry) : AnimState :=
  if entry.isIntersecting then
    match st.page[entry.target]? with
    | none => st
    | some element =>
      let st1 : AnimState :=
        if isCard element then
          let siblings := childrenOf st.page element.parent
          let index := siblings.indexOf entry.target
          { st with timers := st.timers ++ [⟨entry.target, index * 100⟩] }
        else
          { st with page := modifyNth revealStyle st.page entry.target }
      { st1 with
        observed := st1.observed.filter (fun t => t != entry.target)
        handled := st1.handled ++ [entry.target] }
  else st

/-- The observer callback (lines 99-124) applied to one batch of entries. -/
def observerCallback (st : AnimState) (entries : List Entry) : AnimState :=
  entries.foldl handleEntry st

/-- The closure given to `setTimeout` (lines 112-115) firing: the `k`-th
pending timer is removed and its target revealed. -/
def fireTimer (st : AnimState) (k : Nat) : AnimState :=
  match st.timers[k]? with
  | none => st
  | some tm =>
    { st with
      page := modifyNth revealStyle st.page tm.target
      timers := st.timers.eraseIdx k }

/-- The function `initAnimations` (lines 86-141), given the value of
`matchMedia('(prefers-reduced-motion: reduce)').matches`. -/
def initAnimations (prefersReducedMotion : Bool) (page : List Element) : AnimState :=
  if prefersReducedMotion then
    { page := page, observerConstructed := false, observed := [], timers := [],
      handled := [] }
  else
    { page := page.map (fun el => if isAnimated el then hiddenStyle el else el)
      observerConstructed := true
      observed := (List.range page.length).filter
        (fun i => (page[i]?).any isAnimated)
      timers := []
      handled := [] }

/-- What can happen to the animated elements after `initAnimations`. -/
inductive AnimEvent where
  /-- The observer callback is invoked with a batch of entries. -/
  | batch (entries : List Entry)
  /-- The `k`-th pending stagger timer fires. -/
  | timer (k : Nat)
  deriving DecidableEq, Repr

/-- One event of the animation component. -/
def animStep (st : AnimState) : AnimEvent → AnimState
  | .batch entries => observerCallback st entries
  | .timer k => fireTimer st k

/-- Run a sequence of events. -/
def animRun (st : AnimState) (events : List AnimEvent) : AnimState :=
  events.foldl animStep st

/-- The browser only reports targets that the observer is observing when the
batch is delivered, each of them once. -/
def batchDeliverable (st : AnimState) (entries : List Entry) : Bool :=
  entries.all (fun e => st.observed.contains e.target) &&
  decide ((entries.map Entry.target).Nodup)

/-- Every batch of the sequence is one the browser can deliver in the state
in which it arrives. -/
def deliverable : AnimState → List AnimEvent → Bool
  | _, [] => true
  | st, .batch entries :: rest =>
    batchDeliverable st entries && deliverable (animStep st (.batch entries)) rest
  | st, .timer k :: rest => deliverable (animStep st (.timer k)) rest

/-- The revealed state of an element: opacity `1`, transform `translateY(0)`. -/
def isRevealed (st : AnimState) (t : Nat) : Bool :=
  (st.page[t]?).any (fun el => el.opacity == "1" && el.transform == "translateY(0)")

/-- The timers added to the pending list by one run of the observer callback. -/
def scheduledBy (st : AnimState) (entries : List Entry) : List RevealTimer :=
  (observerCallback st entries).timers.drop st.timers.length

/-! ## Schedule table rows (`initTableInteractions`) -/

/-- Inline style properties of a schedule row written by the listeners. -/
structure RowStyle where
  transform : String
  transition : String
  outline : String
  outlineOffset : String
  deriving DecidableEq, Repr

/-- The `mouseenter` listener (lines 148-151). -/
def onMouseEnter (row : RowStyle) : RowStyle :=
  { row with transform := "translateX(8px)", transition := "transform 0.3s ease" }

/-- The `mouseleave` listener (lines 153-155). -/
def onMouseLeave (row : RowStyle) : RowStyle :=
  { row with transform := "translateX(0)" }

/-- The `focus` listener (lines 159-163). -/
def onFocus (row : RowStyle) : RowStyle :=
  { row with
    transform := "translateX(8px)"
    outline := "2px solid #2a5298"
    outlineOffset := "2px" }

/-- The `blur` listener (lines 165-168). -/
def onBlur (row : RowStyle) : RowStyle :=
  { row with transform := "translateX(0)", outline := "none" }

/-! ## Debounced resize handling (`debounce` and the resize listener) -/

/-- A timer created by `setTimeout(later, wait)`: its handle and the time
at which it is due. -/
structure PendingTimer where
  id : Nat
  due : Nat
  deriving DecidableEq, Repr

/-- State of the closure returned by `debounce`, of the timer table of the
browser, and of what the wrapped function has done. -/
structure ResizeState where
  /-- Handle returned by the next `setTimeout`. -/
  nextId : Nat
  /-- The closure variable `timeout`; `none` is `undefined`. -/
  timeout : Option Nat
  /-- Timers set and neither fired nor cleared, oldest first. -/
  pending : List PendingTimer
  /-- Times at which `func` was invoked. -/
  invocations : List Nat
  /-- Times at which the resize handler dispatched a `scroll` event. -/
  scrollDispatched : List Nat
  /-- The navigation tracker, whose `onScroll` listens to `scroll`. -/
  nav : NavState
  deriving DecidableEq, Repr

/-- Behaviour of `clearTimeout(timeout)`. -/
def clearTimeout (handle : Option Nat) (pending : List PendingTimer) : List PendingTimer :=
  pending.filter (fun tm => some tm.id != handle)

/-- The function given to `debounce` at lines 246-253, called at time `now`. -/
def resizeHandler (now : Nat) (st : ResizeState) : ResizeState :=
  if st.nav.navItems.any NavItem.isActive then
    { st with scrollDispatched := st.scrollDispatched ++ [now], nav := onScroll st.nav }
  else st

/-- The closure `later` (lines 236-239) running at time `now`. -/
def later (now : Nat) (st : ResizeState) : ResizeState :=
  let st1 := { st with pending := clearTimeout st.timeout st.pending }
  resizeHandler now { st1 with invocations := st1.invocations ++ [now] }

/-- The function `executedFunction` returned by `debounce(func, wait)`
(lines 235-242), called at time `now`. -/
def executedFunction (wait now : Nat) (st : ResizeState) : ResizeState :=
  { st with
    nextId := st.nextId + 1
    timeout := some st.nextId
    pending := clearTimeout st.timeout st.pending ++ [⟨st.nextId, now + wait⟩] }

/-- The timers due at or before `now` fire, oldest first, each at its due
time; `fuel` bounds the number of firings. -/
def fireDue (now : Nat) : Nat → ResizeState → ResizeState
  | 0, st => st
  | fuel + 1, st =>
    match st.pending.find? (fun tm => decide (tm.due ≤ now)) with
    | none => st
    | some tm =>
      fireDue now fuel (later tm.due { st with pending := st.pending.erase tm })

/-- Let the clock reach `now`: every pending timer due by then fires. -/
def advanceTo (now : Nat) (st : ResizeState) : ResizeState :=
  fireDue now st.pending.length st

/-- A `resize` event at time `now`, handled by `debounce(..., 250)`. -/
def resizeEvent (st : ResizeState) (now : Nat) : ResizeState :=
  executedFunction 250 now (advanceTo now st)

/-- State when the script has been loaded: no timer exists and `timeout`
is `undefined`. -/
def resizeInit (nav : NavState) : ResizeState :=
  { nextId := 0, timeout := none, pending := [], invocations := [],
    scrollDispatched := [], nav := nav }

/-- Each resize event follows the previous one by less than 250. -/
def isBurst : List Nat → Bool
  | [] => true
  | [_] => true
  | a :: b :: rest => decide (a ≤ b) && decide (b < a + 250) && isBurst (b :: rest)

/-! ## Auxiliary notions used in the statements -/

/-- The part of the page that the animation callbacks only read: class list
and parent of every element. -/
def skeleton (page : List Element) : List (List String × Nat) :=
  page.map (fun el => (el.classList, el.parent))

/-- The timer that the observer callback sets for one entry, if any: for an
intersecting entry whose target is a card, the delay is 100 times the
position of the target among the children of its parent. -/
def staggerTimer (page : List Element) (entry : Entry) : Option RevealTimer :=
  if entry.isIntersecting then
    match page[entry.target]? with
    | none => none
    | some element =>
      if isCard element then
        some ⟨entry.target, (childrenOf page element.parent).indexOf entry.target * 100⟩
      else none
  else none

/-- Targets that have been handled are no longer observed. -/
def handledUnobserved (st : AnimState) : Prop :=
  ∀ t ∈ st.handled, t ∉ st.observed

/-- The debounce closure is waiting: exactly one timer is pending, it is the
one `timeout` refers to, it is due 250 after the resize event at `t`, and
the wrapped function has not run yet. -/
def armed (nav : NavState) (t : Nat) (st : ResizeState) : Prop :=
  ∃ id, st.pending = [⟨id, t + 250⟩] ∧ st.timeout = some id ∧ st.invocations = [] ∧
    st.scrollDispatched = [] ∧ st.nav = nav

/-! ## Lemmas on the navigation tracker -/

theorem contains_classListRemove_self (cl : List String) (tok : String) :
    (classListRemove cl tok).contains tok = false := by
  simp [classListRemove]

theorem contains_classListAdd_self (cl : List String) (tok : String) :
    (classListAdd cl tok).contains tok = true := by
  unfold classListAdd
  split
  · assumption
  · simp

theorem classListRemove_classListAdd (cl : List String) (tok : String) :
    classListRemove (classListAdd (classListRemove cl tok) tok) tok
      = classListRemove cl tok := by
  have h := contains_classListRemove_self cl tok
  simp only [classListAdd, h]
  simp [classListRemove, List.filter_append, List.filter_filter]

theorem classListRemove_idem (cl : List String) (tok : String) :
    classListRemove (classListRemove cl tok) tok = classListRemove cl tok := by
  simp [classListRemove, List.filter_filter]

theorem href_updateNavItem (cur : Option String) (item : NavItem) :
    (updateNavItem cur item).href = item.href := by
  unfold updateNavItem
  split <;> rfl

theorem isActive_updateNavItem (cur : Option String) (item : NavItem) :
    (updateNavItem cur item).isActive
      = decide (item.href = some ("#" ++ jsToString cur)) := by
  unfold updateNavItem NavItem.isActive
  by_cases h : item.href = some ("#" ++ jsToString cur)
  · simp only [h, if_true, decide_True]
    exact contains_classListAdd_self _ _
  · simp only [h, if_false, decide_False]
    exact contains_classListRemove_self _ _

theorem updateNavItem_idem (cur : Option String) (item : NavItem) :
    updateNavItem cur (updateNavItem cur item) = updateNavItem cur item := by
  unfold updateNavItem
  by_cases h : item.href = some ("#" ++ jsToString cur)
  · simp only [h, if_true, classListRemove_classListAdd]
  · simp only [h, if_false, classListRemove_idem]

theorem foldl_sectionStep (p : Int) (sections : List Section) (c : Option String) :
    sections.foldl (sectionStep p) c
      = match (sections.filter (inView p)).getLast? with
        | some s => s.id
        | none => c := by
  induction sections generalizing c with
  | nil => rfl
  | cons s rest ih =>
    rw [List.foldl_cons, ih]
    by_cases hs : inView p s = true
    · rw [List.filter_cons_of_pos hs]
      cases hrest : rest.filter (inView p) with
      | nil => simp [sectionStep, hs]
      | cons a l =>
        rw [List.getLast?_cons_cons]
        cases hl : (a :: l).getLast? with
        | none => simp [List.getLast?_eq_none_iff] at hl
        | some b => rfl
    · rw [List.filter_cons_of_neg hs]
      simp [sectionStep, hs]

theorem navItems_updateActiveSection (sections : List Section) (scrollY : Int)
    (st : NavState) :
    (updateActiveSection sections scrollY st).navItems
      = st.navItems.map (updateNavItem (findCurrentSection sections scrollY)) := rfl

theorem length_filter_isActive_map (cur : Option String) (items : List NavItem) :
    ((items.map (updateNavItem cur)).filter NavItem.isActive).length
      = (items.filterMap NavItem.href).count ("#" ++ jsToString cur) := by
  induction items with
  | nil => rfl
  | cons item rest ih =>
    rw [List.map_cons, List.filter_cons, isActive_updateNavItem]
    cases hh : item.href with
    | none => simp [List.filterMap_cons, hh, ih]
    | some v =>
      by_cases hv : v = "#" ++ jsToString cur
      · subst hv
        simp [List.filterMap_cons, hh, ih]
      · have hv2 : ¬ ("#" ++ jsToString cur = v) := fun h => hv h.symm
        simp [List.filterMap_cons, hh, ih, hv, List.count_cons, hv2]

theorem navInvariant_step (sections : List Section) (w : Int × NavState) (e : NavEvent)
    (h : w.2.pendingFrames ≤ 1 ∧ (w.2.ticking = true ↔ w.2.pendingFrames = 1)) :
    (navStep sections w e).2.pendingFrames ≤ 1 ∧
      ((navStep sections w e).2.ticking = true
        ↔ (navStep sections w e).2.pendingFrames = 1) := by
  obtain ⟨y, nav, tick, pend⟩ := w
  simp only at h
  cases e with
  | scroll y2 =>
    cases tick with
    | true => simpa [navStep, onScroll] using h
    | false =>
      have hp : pend = 0 := by
        have := h.2
        simp at this
        omega
      simp [navStep, onScroll, hp]
  | frame =>
    by_cases hp : pend = 0
    · simpa [navStep, hp] using h
    · have h1 : pend = 1 := by omega
      simp [navStep, h1, updateActiveSection]

theorem navInvariant_run (sections : List Section) (events : List NavEvent)
    (w : Int × NavState)
    (h : w.2.pendingFrames ≤ 1 ∧ (w.2.ticking = true ↔ w.2.pendingFrames = 1)) :
    (events.foldl (navStep sections) w).2.pendingFrames ≤ 1 ∧
      ((events.foldl (navStep sections) w).2.ticking = true
        ↔ (events.foldl (navStep sections) w).2.pendingFrames = 1) := by
  induction events generalizing w with
  | nil => exact h
  | cons e rest ih => exact ih _ (navInvariant_step sections w e h)

/-! ## Claims on the navigation tracker -/

/-- C1, as stated, fails: with two navigation links that both point to
`#about` and the section `about` in view, `updateActiveSection` leaves two
links carrying `active`. -/
theorem two_links_active_on_shared_href :
    ((updateActiveSection [⟨some "about", 0, 500⟩] 0
        ⟨[⟨some "#about", []⟩, ⟨some "#about", []⟩], false, 0⟩).navItems.filter
      NavItem.isActive).length = 2 := by
  decide

/-- C1, amended: for every list of sections, every scroll position and every
list of navigation links (arbitrary prior `active` membership) in which no
two links have the same `href` value, at most one link carries `active`
after `updateActiveSection`. -/
theorem at_most_one_active_of_distinct_hrefs (sections : List Section) (scrollY : Int)
    (st : NavState) (hdistinct : (st.navItems.filterMap NavItem.href).Nodup) :
    ((updateActiveSection sections scrollY st).navItems.filter NavItem.isActive).length
      ≤ 1 := by
  rw [navItems_updateActiveSection, length_filter_isActive_map]
  exact List.nodup_iff_count_le_one.mp hdistinct _

/-- Witness of C1 amended: two distinct links, the second one active before. -/
theorem at_most_one_active_of_distinct_hrefs_witness :
    ((updateActiveSection [⟨some "a", 0, 500⟩, ⟨some "b", 500, 500⟩] 200
        ⟨[⟨some "#a", []⟩, ⟨some "#b", ["active"]⟩], true, 1⟩).navItems.filter
      NavItem.isActive).length ≤ 1 :=
  at_most_one_active_of_distinct_hrefs [⟨some "a", 0, 500⟩, ⟨some "b", 500, 500⟩] 200
    ⟨[⟨some "#a", []⟩, ⟨some "#b", ["active"]⟩], true, 1⟩ (by decide)

/-- C2: when exactly one section `s` has `scrollY + 150` in
`[top, top + height)`, a navigation link carries `active` after
`updateActiveSection` if and only if its `href` is `#` followed by the id
of `s`. -/
theorem active_iff_href_of_unique_section (sections : List Section) (scrollY : Int)
    (st : NavState) (s : Section) (i : String)
    (hunique : sections.filter (inView (scrollY + 150)) = [s]) (hid : s.id = some i) :
    ∀ item ∈ (updateActiveSection sections scrollY st).navItems,
      item.isActive = true ↔ item.href = some ("#" ++ i) := by
  intro item hitem
  rw [navItems_updateActiveSection, List.mem_map] at hitem
  obtain ⟨item0, _, rfl⟩ := hitem
  have hcur : findCurrentSection sections scrollY = some i := by
    unfold findCurrentSection
    rw [foldl_sectionStep, hunique]
    simpa using hid
  rw [isActive_updateNavItem, href_updateNavItem, hcur]
  simp [jsToString]

/-- Witness of C2: the scenario A(top 0, height 500), B(top 500, height 500);
at `scrollY = 200` exactly the link of A is active, at `scrollY = 450`
exactly the link of B. -/
theorem active_iff_href_of_unique_section_witness :
    ((updateActiveSection [⟨some "A", 0, 500⟩, ⟨some "B", 500, 500⟩] 200
        ⟨[⟨some "#A", []⟩, ⟨some "#B", ["active"]⟩], false, 0⟩).navItems.map
      NavItem.isActive = [true, false]) ∧
    ((updateActiveSection [⟨some "A", 0, 500⟩, ⟨some "B", 500, 500⟩] 450
        ⟨[⟨some "#A", ["active"]⟩, ⟨some "#B", []⟩], false, 0⟩).navItems.map
      NavItem.isActive = [false, true]) ∧
    (∀ item ∈ (updateActiveSection [⟨some "A", 0, 500⟩, ⟨some "B", 500, 500⟩] 200
        ⟨[⟨some "#A", []⟩, ⟨some "#B", ["active"]⟩], false, 0⟩).navItems,
      item.isActive = true ↔ item.href = some ("#" ++ "A")) ∧
    (∀ item ∈ (updateActiveSection [⟨some "A", 0, 500⟩, ⟨some "B", 500, 500⟩] 450
        ⟨[⟨some "#A", ["active"]⟩, ⟨some "#B", []⟩], false, 0⟩).navItems,
      item.isActive = true ↔ item.href = some ("#" ++ "B")) :=
  ⟨by decide, by decide,
   active_iff_href_of_unique_section [⟨some "A", 0, 500⟩, ⟨some "B", 500, 500⟩] 200
     ⟨[⟨some "#A", []⟩, ⟨some "#B", ["active"]⟩], false, 0⟩ ⟨some "A", 0, 500⟩ "A"
     (by decide) rfl,
   active_iff_href_of_unique_section [⟨some "A", 0, 500⟩, ⟨some "B", 500, 500⟩] 450
     ⟨[⟨some "#A", ["active"]⟩, ⟨some "#B", []⟩], false, 0⟩ ⟨some "B", 500, 500⟩ "B"
     (by decide) rfl⟩

/-- C3 at the failing input: the only section spans `[0, 500)`, the
evaluation point is `1150`, so no section contains it; the navigation link
whose `href` is `#` nevertheless carries `active` after
`updateActiveSection`, while the other link does not. -/
theorem bare_hash_link_active_without_section :
    [(⟨some "intro", 0, 500⟩ : Section)].filter (inView (1000 + 150)) = [] ∧
    (updateActiveSection [⟨some "intro", 0, 500⟩] 1000
        ⟨[⟨some "#", []⟩, ⟨some "#intro", ["active"]⟩], false, 0⟩).navItems.map
      NavItem.isActive = [true, false] := by
  decide

/-- C4: after initialisation and any sequence of scroll events and frame
callbacks, at most one `updateActiveSection` callback is pending, `ticking`
is true exactly when one is pending, and a further scroll event arriving
while one is pending schedules nothing. -/
theorem scroll_coalescing_invariant (sections : List Section) (scrollY : Int)
    (navItems : List NavItem) (events : List NavEvent) :
    (navRun sections scrollY navItems events).2.pendingFrames ≤ 1 ∧
    ((navRun sections scrollY navItems events).2.ticking = true
      ↔ 0 < (navRun sections scrollY navItems events).2.pendingFrames) ∧
    ∀ y : Int, 0 < (navRun sections scrollY navItems events).2.pendingFrames →
      (navStep sections (navRun sections scrollY navItems events) (.scroll y)).2.pendingFrames
        = (navRun sections scrollY navItems events).2.pendingFrames := by
  have hinv := navInvariant_run sections events
    (scrollY, initActiveNavigation sections scrollY navItems)
    (by simp [initActiveNavigation, updateActiveSection])
  change (navRun sections scrollY navItems events).2.pendingFrames ≤ 1 ∧
    ((navRun sections scrollY navItems events).2.ticking = true
      ↔ (navRun sections scrollY navItems events).2.pendingFrames = 1) at hinv
  obtain ⟨hle, hiff⟩ := hinv
  refine ⟨hle, ?_, ?_⟩
  · rw [hiff]
    omega
  · intro y hpos
    have htick : (navRun sections scrollY navItems events).2.ticking = true :=
      hiff.mpr (by omega)
    simp [navStep, onScroll, htick]

/-- Witness of C4: two scroll events in a row leave one pending callback,
and a third one schedules nothing. -/
theorem scroll_coalescing_invariant_witness :
    (navRun [⟨some "a", 0, 500⟩] 0 [⟨some "#a", []⟩] [.scroll 10, .scroll 20]).2.pendingFrames
      = 1 ∧
    (navStep [⟨some "a", 0, 500⟩]
        (navRun [⟨some "a", 0, 500⟩] 0 [⟨some "#a", []⟩] [.scroll 10, .scroll 20])
        (.scroll 30)).2.pendingFrames
      = (navRun [⟨some "a", 0, 500⟩] 0 [⟨some "#a", []⟩]
          [.scroll 10, .scroll 20]).2.pendingFrames :=
  ⟨by decide,
   (scroll_coalescing_invariant [⟨some "a", 0, 500⟩] 0 [⟨some "#a", []⟩]
      [.scroll 10, .scroll 20]).2.2 30 (by decide)⟩

/-- C9: `updateActiveSection` is idempotent for unchanged sections and
scroll position (a second run changes nothing), and which links carry
`active` afterwards does not depend on which links carried it before. -/
theorem updateActiveSection_idempotent (sections : List Section) (scrollY : Int)
    (st : NavState) :
    updateActiveSection sections scrollY (updateActiveSection sections scrollY st)
      = updateActiveSection sections scrollY st ∧
    ∀ st2 : NavState, st2.navItems.map NavItem.href = st.navItems.map NavItem.href →
      (updateActiveSection sections scrollY st2).navItems.map NavItem.isActive
        = (updateActiveSection sections scrollY st).navItems.map NavItem.isActive := by
  constructor
  · simp only [updateActiveSection, List.map_map]
    congr 1
    apply List.map_congr_left
    intro item _
    exact updateNavItem_idem _ item
  · intro st2 h
    simp only [navItems_updateActiveSection, List.map_map]
    have hfun : (NavItem.isActive ∘ updateNavItem (findCurrentSection sections scrollY))
        = (fun o : Option String =>
            decide (o = some ("#" ++ jsToString (findCurrentSection sections scrollY))))
          ∘ NavItem.href := by
      funext item
      simp [isActive_updateNavItem]
    rw [hfun, ← List.map_map, ← List.map_map, h]

/-- Witness of C9: the same links with different prior `active` membership. -/
theorem updateActiveSection_idempotent_witness :
    (updateActiveSection [⟨some "a", 0, 500⟩] 0
        ⟨[⟨some "#a", []⟩, ⟨some "#b", ["active"]⟩], false, 0⟩).navItems.map NavItem.isActive
      = (updateActiveSection [⟨some "a", 0, 500⟩] 0
        ⟨[⟨some "#a", ["active"]⟩, ⟨some "#b", []⟩], true, 0⟩).navItems.map
          NavItem.isActive :=
  (updateActiveSection_idempotent [⟨some "a", 0, 500⟩] 0
      ⟨[⟨some "#a", ["active"]⟩, ⟨some "#b", []⟩], true, 0⟩).2
    ⟨[⟨some "#a", []⟩, ⟨some "#b", ["active"]⟩], false, 0⟩ (by decide)

/-! ## Lemmas on the entrance animations -/

theorem getElem?_modifyNth (f : Element → Element) (page : List Element) (k t : Nat) :
    (modifyNth f page k)[t]? = if t = k then (page[t]?).map f else page[t]? := by
  induction page generalizing k t with
  | nil => cases k <;> simp [modifyNth]
  | cons x xs ih =>
    cases k with
    | zero =>
      cases t with
      | zero => simp [modifyNth]
      | succ t => simp [modifyNth]
    | succ k =>
      cases t with
      | zero => simp [modifyNth]
      | succ t => simp [modifyNth, ih]

theorem skeleton_modifyNth_revealStyle (page : List Element) (k : Nat) :
    skeleton (modifyNth revealStyle page k) = skeleton page := by
  induction page generalizing k with
  | nil => cases k <;> rfl
  | cons x xs ih =>
    cases k with
    | zero => simp [modifyNth, skeleton, revealStyle]
    | succ k =>
      have := ih k
      simp only [skeleton] at this
      simp [modifyNth, skeleton, this]

theorem getElem?_skeleton (page : List Element) (i : Nat) :
    (skeleton page)[i]? = (page[i]?).map (fun el => (el.classList, el.parent)) := by
  simp [skeleton]

theorem childrenOf_congr (page page2 : List Element) (h : skeleton page = skeleton page2)
    (p : Nat) : childrenOf page p = childrenOf page2 p := by
  have hlen : page.length = page2.length := by
    have := congrArg List.length h
    simpa [skeleton] using this
  unfold childrenOf
  rw [hlen]
  apply List.filter_congr
  intro i _
  have hi := congrArg (fun l => (l[i]?).map Prod.snd) h
  simp only [getElem?_skeleton, Option.map_map] at hi
  have e1 : (page[i]?).map Element.parent
      = (page[i]?).map (Prod.snd ∘ fun el => (el.classList, el.parent)) := rfl
  have e2 : (page2[i]?).map Element.parent
      = (page2[i]?).map (Prod.snd ∘ fun el => (el.classList, el.parent)) := rfl
  rw [e1, e2, hi]

theorem staggerTimer_congr (page page2 : List Element) (h : skeleton page = skeleton page2)
    (e : Entry) : staggerTimer page e = staggerTimer page2 e := by
  have hi := congrArg (fun l => l[e.target]?) h
  simp only [getElem?_skeleton] at hi
  unfold staggerTimer
  cases hint : e.isIntersecting with
  | false => simp
  | true =>
    simp only [if_true]
    cases h1 : page[e.target]? with
    | none =>
      cases h2 : page2[e.target]? with
      | none => rfl
      | some el2 => simp [h1, h2] at hi
    | some el1 =>
      cases h2 : page2[e.target]? with
      | none => simp [h1, h2] at hi
      | some el2 =>
        simp only [h1, h2, Option.map_some', Option.some.injEq, Prod.mk.injEq] at hi
        obtain ⟨hc, hp⟩ := hi
        have hcard : isCard el1 = isCard el2 := by simp [isCard, hc]
        simp only [hcard, hp, childrenOf_congr page page2 h]

theorem skeleton_handleEntry (st : AnimState) (e : Entry) :
    skeleton (handleEntry st e).page = skeleton st.page := by
  unfold handleEntry
  split
  · split
    · rfl
    · split
      · rfl
      · exact skeleton_modifyNth_revealStyle _ _
  · rfl

theorem timers_handleEntry (st : AnimState) (e : Entry) :
    (handleEntry st e).timers = st.timers ++ (staggerTimer st.page e).toList := by
  unfold handleEntry staggerTimer
  cases e.isIntersecting with
  | false => simp
  | true =>
    simp only [if_true]
    cases st.page[e.target]? with
    | none => simp
    | some el =>
      cases hc : isCard el with
      | false => simp [hc]
      | true => simp [hc]

theorem timers_observerCallback (st : AnimState) (entries : List Entry) :
    (observerCallback st entries).timers
      = st.timers ++ entries.filterMap (staggerTimer st.page) := by
  unfold observerCallback
  induction entries generalizing st with
  | nil => simp
  | cons e rest ih =>
    rw [List.foldl_cons, ih, timers_handleEntry]
    have hfun : staggerTimer (handleEntry st e).page = staggerTimer st.page := by
      funext e2
      exact staggerTimer_congr _ _ (skeleton_handleEntry st e) e2
    rw [hfun, List.filterMap_cons]
    cases staggerTimer st.page e <;> simp

theorem scheduledBy_eq (st : AnimState) (entries : List Entry) :
    scheduledBy st entries = entries.filterMap (staggerTimer st.page) := by
  unfold scheduledBy
  rw [timers_observerCallback]
  simp

theorem isRevealed_of_page_modifyNth (st st2 : AnimState) (k t : Nat)
    (hpage : st2.page = modifyNth revealStyle st.page k)
    (h : isRevealed st t = true) : isRevealed st2 t = true := by
  unfold isRevealed at h ⊢
  rw [hpage, getElem?_modifyNth]
  cases hel : st.page[t]? with
  | none => simp [hel] at h
  | some el =>
    by_cases htk : t = k
    · simp [htk.symm, hel, revealStyle]
    · simpa [htk, hel] using h

theorem isRevealed_of_page_eq (st st2 : AnimState) (t : Nat) (hpage : st2.page = st.page)
    (h : isRevealed st t = true) : isRevealed st2 t = true := by
  unfold isRevealed at h ⊢
  rw [hpage]
  exact h

theorem page_handleEntry (st : AnimState) (e : Entry) :
    (handleEntry st e).page = st.page ∨
      (handleEntry st e).page = modifyNth revealStyle st.page e.target := by
  unfold handleEntry
  split
  · split
    · exact Or.inl rfl
    · split
      · exact Or.inl rfl
      · exact Or.inr rfl
  · exact Or.inl rfl

theorem isRevealed_handleEntry (st : AnimState) (e : Entry) (t : Nat)
    (h : isRevealed st t = true) : isRevealed (handleEntry st e) t = true := by
  rcases page_handleEntry st e with hp | hp
  · exact isRevealed_of_page_eq st _ t hp h
  · exact isRevealed_of_page_modifyNth st _ _ t hp h

theorem isRevealed_observerCallback (st : AnimState) (entries : List Entry) (t : Nat)
    (h : isRevealed st t = true) : isRevealed (observerCallback st entries) t = true := by
  unfold observerCallback
  induction entries generalizing st with
  | nil => exact h
  | cons e rest ih => exact ih _ (isRevealed_handleEntry st e t h)

theorem isRevealed_fireTimer (st : AnimState) (k t : Nat)
    (h : isRevealed st t = true) : isRevealed (fireTimer st k) t = true := by
  unfold fireTimer
  split
  · exact h
  · exact isRevealed_of_page_modifyNth st _ _ t rfl h

theorem isRevealed_animStep (st : AnimState) (ev : AnimEvent) (t : Nat)
    (h : isRevealed st t = true) : isRevealed (animStep st ev) t = true := by
  cases ev with
  | batch entries => exact isRevealed_observerCallback st entries t h
  | timer k => exact isRevealed_fireTimer st k t h

theorem isRevealed_animRun (st : AnimState) (events : List AnimEvent) (t : Nat)
    (h : isRevealed st t = true) : isRevealed (animRun st events) t = true := by
  unfold animRun
  induction events generalizing st with
  | nil => exact h
  | cons ev rest ih => exact ih _ (isRevealed_animStep st ev t h)

theorem handleEntry_cases (st : AnimState) (e : Entry) :
    handleEntry st e = st ∨
      ((handleEntry st e).observed = st.observed.filter (fun t => t != e.target) ∧
        (handleEntry st e).handled = st.handled ++ [e.target]) := by
  unfold handleEntry
  split
  · split
    · exact Or.inl rfl
    · split
      · exact Or.inr ⟨rfl, rfl⟩
      · exact Or.inr ⟨rfl, rfl⟩
  · exact Or.inl rfl

theorem handledUnobserved_handleEntry (st : AnimState) (e : Entry)
    (h : handledUnobserved st) : handledUnobserved (handleEntry st e) := by
  rcases handleEntry_cases st e with heq | ⟨hobs, hhand⟩
  · rw [heq]
    exact h
  · intro t ht
    rw [hobs]
    rw [hhand, List.mem_append, List.mem_singleton] at ht
    rcases ht with ht | ht
    · intro hmem
      exact h t ht (List.mem_filter.mp hmem).1
    · subst ht
      simp

theorem handledUnobserved_observerCallback (st : AnimState) (entries : List Entry)
    (h : handledUnobserved st) : handledUnobserved (observerCallback st entries) := by
  unfold observerCallback
  induction entries generalizing st with
  | nil => exact h
  | cons e rest ih => exact ih _ (handledUnobserved_handleEntry st e h)

theorem handledUnobserved_fireTimer (st : AnimState) (k : Nat)
    (h : handledUnobserved st) : handledUnobserved (fireTimer st k) := by
  unfold fireTimer
  split
  · exact h
  · exact h

theorem handledUnobserved_animRun (st : AnimState) (events : List AnimEvent)
    (h : handledUnobserved st) : handledUnobserved (animRun st events) := by
  unfold animRun
  induction events generalizing st with
  | nil => exact h
  | cons ev rest ih =>
    apply ih
    cases ev with
    | batch entries => exact handledUnobserved_observerCallback st entries h
    | timer k => exact handledUnobserved_fireTimer st k h

theorem handled_nodup_foldl (entries : List Entry) (st : AnimState)
    (hnd : st.handled.Nodup) (hdis : handledUnobserved st)
    (hobs : ∀ e ∈ entries, e.target ∈ st.observed)
    (htargets : (entries.map Entry.target).Nodup) :
    (entries.foldl handleEntry st).handled.Nodup := by
  induction entries generalizing st with
  | nil => exact hnd
  | cons e rest ih =>
    rw [List.foldl_cons]
    rw [List.map_cons, List.nodup_cons] at htargets
    obtain ⟨hnotin, hrest⟩ := htargets
    have he : e.target ∈ st.observed := hobs e (List.mem_cons_self _ _)
    apply ih _ _ (handledUnobserved_handleEntry st e hdis) _ hrest
    · rcases handleEntry_cases st e with heq | ⟨_, hhand⟩
      · rw [heq]
        exact hnd
      · rw [hhand]
        apply List.Nodup.append hnd (List.nodup_singleton _)
        intro t ht1 ht2
        rw [List.mem_singleton] at ht2
        subst ht2
        exact hdis _ ht1 he
    · intro e2 he2
      have h2 : e2.target ∈ st.observed := hobs e2 (List.mem_cons_of_mem _ he2)
      rcases handleEntry_cases st e with heq | ⟨hobs2, _⟩
      · rw [heq]
        exact h2
      · rw [hobs2, List.mem_filter]
        refine ⟨h2, ?_⟩
        have hne : e2.target ≠ e.target := by
          intro heq
          apply hnotin
          rw [← heq]
          exact List.mem_map_of_mem _ he2
        simpa using hne

theorem handled_nodup_animRun (events : List AnimEvent) (st : AnimState)
    (hnd : st.handled.Nodup) (hdis : handledUnobserved st)
    (hdel : deliverable st events = true) :
    (animRun st events).handled.Nodup := by
  unfold animRun
  induction events generalizing st with
  | nil => exact hnd
  | cons ev rest ih =>
    rw [List.foldl_cons]
    cases ev with
    | batch entries =>
      simp only [deliverable, batchDeliverable, Bool.and_eq_true, List.all_eq_true,
        decide_eq_true_eq] at hdel
      obtain ⟨⟨hobs0, htargets⟩, hrest⟩ := hdel
      have hobs : ∀ e ∈ entries, e.target ∈ st.observed := fun e he => by
        simpa using hobs0 e he
      exact ih _ (handled_nodup_foldl entries st hnd hdis hobs htargets)
        (handledUnobserved_observerCallback st entries hdis) hrest
    | timer k =>
      simp only [deliverable] at hdel
      refine ih _ ?_ (handledUnobserved_fireTimer st k hdis) hdel
      simp only [animStep, fireTimer]
      split <;> exact hnd

theorem parent_of_mem_childrenOf (page : List Element) (p t : Nat)
    (h : t ∈ childrenOf page p) : ∃ el, page[t]? = some el ∧ el.parent = p := by
  unfold childrenOf at h
  rw [List.mem_filter] at h
  obtain ⟨_, hpar⟩ := h
  cases hel : page[t]? with
  | none => simp [hel] at hpar
  | some el =>
    refine ⟨el, rfl, ?_⟩
    simpa [hel] using hpar

theorem nodup_childrenOf (page : List Element) (p : Nat) : (childrenOf page p).Nodup := by
  unfold childrenOf
  exact (List.nodup_range _).filter _

theorem staggerTimer_of_child (page : List Element) (p t : Nat)
    (ht : t ∈ childrenOf page p) (hcard : (page[t]?).any isCard = true) :
    staggerTimer page ⟨t, true⟩
      = some ⟨t, (childrenOf page p).indexOf t * 100⟩ := by
  obtain ⟨el, hel, hp⟩ := parent_of_mem_childrenOf page p t ht
  rw [hel] at hcard
  simp only [Option.any_some] at hcard
  simp [staggerTimer, hel, hcard, hp]

theorem staggerTimer_eq_some (page : List Element) (e : Entry) (tm : RevealTimer)
    (h : staggerTimer page e = some tm) :
    e.isIntersecting = true ∧ ∃ el, page[e.target]? = some el ∧ isCard el = true ∧
      tm = ⟨e.target, (childrenOf page el.parent).indexOf e.target * 100⟩ := by
  unfold staggerTimer at h
  cases hint : e.isIntersecting with
  | false => simp [hint] at h
  | true =>
    refine ⟨rfl, ?_⟩
    cases hel : page[e.target]? with
    | none => simp [hint, hel] at h
    | some el =>
      cases hc : isCard el with
      | false => simp [hint, hel, hc] at h
      | true =>
        simp only [hint, hel, hc, if_true, Option.some.injEq] at h
        exact ⟨el, rfl, hc, h.symm⟩

theorem delay_of_scheduled_child (st : AnimState) (entries : List Entry) (p t : Nat)
    (ht : t ∈ childrenOf st.page p) (tm : RevealTimer)
    (htm : tm ∈ scheduledBy st entries) (htarget : tm.target = t) :
    tm.delay = (childrenOf st.page p).indexOf t * 100 := by
  rw [scheduledBy_eq, List.mem_filterMap] at htm
  obtain ⟨e, _, he⟩ := htm
  obtain ⟨_, el, hel, _, htm2⟩ := staggerTimer_eq_some st.page e tm he
  obtain ⟨el2, hel2, hp⟩ := parent_of_mem_childrenOf st.page p t ht
  have het : e.target = t := by
    rw [htm2] at htarget
    exact htarget
  rw [het, hel2] at hel
  simp only [Option.some.injEq] at hel
  subst hel
  rw [htm2, het, hp]

theorem scheduled_of_intersecting_child (st : AnimState) (entries : List Entry) (p t : Nat)
    (ht : t ∈ childrenOf st.page p) (hcard : (st.page[t]?).any isCard = true)
    (hmem : (⟨t, true⟩ : Entry) ∈ entries) :
    (⟨t, (childrenOf st.page p).indexOf t * 100⟩ : RevealTimer) ∈ scheduledBy st entries := by
  rw [scheduledBy_eq, List.mem_filterMap]
  exact ⟨⟨t, true⟩, hmem, staggerTimer_of_child st.page p t ht hcard⟩

theorem any_notCard_congr (page page2 : List Element) (h : skeleton page = skeleton page2)
    (t : Nat) :
    (page[t]?).any (fun el => !isCard el) = (page2[t]?).any (fun el => !isCard el) := by
  have hi := congrArg (fun l => l[t]?) h
  simp only [getElem?_skeleton] at hi
  cases h1 : page[t]? with
  | none =>
    cases h2 : page2[t]? with
    | none => rfl
    | some el2 => simp [h1, h2] at hi
  | some el1 =>
    cases h2 : page2[t]? with
    | none => simp [h1, h2] at hi
    | some el2 =>
      simp only [h1, h2, Option.map_some', Option.some.injEq, Prod.mk.injEq] at hi
      simp [isCard, hi.1]

theorem isRevealed_handleEntry_notCard (st : AnimState) (e : Entry)
    (hint : e.isIntersecting = true)
    (hnc : (st.page[e.target]?).any (fun el => !isCard el) = true) :
    isRevealed (handleEntry st e) e.target = true := by
  cases hel : st.page[e.target]? with
  | none => simp [hel] at hnc
  | some el =>
    rw [hel] at hnc
    simp only [Option.any_some, Bool.not_eq_true'] at hnc
    simp [handleEntry, hint, hel, hnc, isRevealed, getElem?_modifyNth, revealStyle]

theorem isRevealed_observerCallback_notCard (st : AnimState) (entries : List Entry)
    (e : Entry) (he : e ∈ entries) (hint : e.isIntersecting = true)
    (hnc : (st.page[e.target]?).any (fun el => !isCard el) = true) :
    isRevealed (observerCallback st entries) e.target = true := by
  induction entries generalizing st with
  | nil => simp at he
  | cons e0 rest ih =>
    rw [List.mem_cons] at he
    rcases he with he | he
    · subst he
      exact isRevealed_observerCallback (handleEntry st e) rest e.target
        (isRevealed_handleEntry_notCard st e hint hnc)
    · apply ih (handleEntry st e0) he
      rw [any_notCard_congr _ _ (skeleton_handleEntry st e0)]
      exact hnc

theorem no_timer_for_notCard (st : AnimState) (entries : List Entry) (t : Nat)
    (hnc : (st.page[t]?).any (fun el => !isCard el) = true) :
    ∀ tm ∈ scheduledBy st entries, tm.target ≠ t := by
  intro tm htm htarget
  rw [scheduledBy_eq, List.mem_filterMap] at htm
  obtain ⟨e, _, he⟩ := htm
  obtain ⟨_, el, hel, hcard, htm2⟩ := staggerTimer_eq_some st.page e tm he
  have het : e.target = t := by
    rw [htm2] at htarget
    exact htarget
  rw [het] at hel
  simp [hel, hcard] at hnc

theorem animRun_of_idle (events : List AnimEvent) (st : AnimState)
    (hobs : st.observed = []) (htimers : st.timers = [])
    (hdel : deliverable st events = true) : animRun st events = st := by
  unfold animRun
  induction events with
  | nil => rfl
  | cons ev rest ih =>
    rw [List.foldl_cons]
    cases ev with
    | batch entries =>
      simp only [deliverable, batchDeliverable, Bool.and_eq_true, List.all_eq_true,
        decide_eq_true_eq] at hdel
      obtain ⟨⟨hall, _⟩, hrest⟩ := hdel
      have hnil : entries = [] := by
        cases entries with
        | nil => rfl
        | cons e es =>
          have := hall e (List.mem_cons_self _ _)
          simp [hobs] at this
      subst hnil
      exact ih hrest
    | timer k =>
      simp only [deliverable] at hdel
      have hstep : animStep st (.timer k) = st := by
        simp [animStep, fireTimer, htimers]
      rw [hstep] at hdel ⊢
      exact ih hdel

/-! ## Claims on the entrance animations -/

/-- C5, as stated, fails: the callback has no guard of its own, so a batch
that carries two intersecting entries for the same card runs the
intersecting branch twice for it and sets two timers. -/
theorem repeated_entry_handled_twice :
    (animRun (initAnimations false [⟨["speaker-card"], 7, "", "", ""⟩])
      [.batch [⟨0, true⟩, ⟨0, true⟩]]).handled.count 0 = 2 ∧
    (animRun (initAnimations false [⟨["speaker-card"], 7, "", "", ""⟩])
      [.batch [⟨0, true⟩, ⟨0, true⟩]]).timers = [⟨0, 0⟩, ⟨0, 0⟩] := by
  decide

/-- C5, amended: after `initAnimations` has run (no reduced motion), for every
sequence of observer batches and timer firings: an element that is revealed
(opacity `1`, transform `translateY(0)`) is still revealed after any further
events; an element for which the intersecting branch has run is no longer
observed; and, provided every batch reports only targets observed when it is
delivered and each of them once, that branch runs at most once per element. -/
theorem reveal_is_one_shot (page : List Element) (events further : List AnimEvent)
    (t : Nat) :
    (isRevealed (animRun (initAnimations false page) events) t = true →
      isRevealed (animRun (animRun (initAnimations false page) events) further) t = true) ∧
    (t ∈ (animRun (initAnimations false page) events).handled →
      t ∉ (animRun (initAnimations false page) events).observed) ∧
    (deliverable (initAnimations false page) events = true →
      (animRun (initAnimations false page) events).handled.count t ≤ 1) := by
  have hinit : handledUnobserved (initAnimations false page) := by
    intro t ht
    simp [initAnimations] at ht
  refine ⟨isRevealed_animRun _ further t, ?_, ?_⟩
  · exact handledUnobserved_animRun _ events hinit t
  · intro hdel
    have hnd := handled_nodup_animRun events (initAnimations false page)
      (by simp [initAnimations]) hinit hdel
    exact List.nodup_iff_count_le_one.mp hnd t

/-- Witness of C5 amended: a `subsection` element is revealed by an intersecting
entry and stays revealed through a non-intersecting entry and a timer event;
it has been handled once and is no longer observed. -/
theorem reveal_is_one_shot_witness :
    isRevealed (animRun (initAnimations false [⟨["subsection"], 7, "", "", ""⟩])
      [.batch [⟨0, true⟩]]) 0 = true ∧
    isRevealed (animRun (animRun (initAnimations false [⟨["subsection"], 7, "", "", ""⟩])
      [.batch [⟨0, true⟩]]) [.batch [⟨0, false⟩], .timer 0]) 0 = true ∧
    0 ∉ (animRun (initAnimations false [⟨["subsection"], 7, "", "", ""⟩])
      [.batch [⟨0, true⟩]]).observed ∧
    (animRun (initAnimations false [⟨["subsection"], 7, "", "", ""⟩])
      [.batch [⟨0, true⟩]]).handled.count 0 ≤ 1 :=
  ⟨by decide,
   (reveal_is_one_shot [⟨["subsection"], 7, "", "", ""⟩] [.batch [⟨0, true⟩]]
      [.batch [⟨0, false⟩], .timer 0] 0).1 (by decide),
   (reveal_is_one_shot [⟨["subsection"], 7, "", "", ""⟩] [.batch [⟨0, true⟩]]
      [] 0).2.1 (by decide),
   (reveal_is_one_shot [⟨["subsection"], 7, "", "", ""⟩] [.batch [⟨0, true⟩]]
      [] 0).2.2 (by decide)⟩

/-- C6, as stated, fails: under parent `0` the children are a heading
(element 1) followed by three `speaker-card` siblings (elements 2, 3, 4);
when the three cards intersect in one batch the callback schedules the
delays 100, 200 and 300, not 0, 100 and 200. -/
theorem stagger_delays_shifted_by_leading_sibling :
    childrenOf [⟨[], 9, "", "", ""⟩, ⟨[], 0, "", "", ""⟩, ⟨["speaker-card"], 0, "", "", ""⟩,
        ⟨["speaker-card"], 0, "", "", ""⟩, ⟨["speaker-card"], 0, "", "", ""⟩] 0
      = [1, 2, 3, 4] ∧
    scheduledBy
        (initAnimations false
          [⟨[], 9, "", "", ""⟩, ⟨[], 0, "", "", ""⟩, ⟨["speaker-card"], 0, "", "", ""⟩,
            ⟨["speaker-card"], 0, "", "", ""⟩, ⟨["speaker-card"], 0, "", "", ""⟩])
        [⟨2, true⟩, ⟨3, true⟩, ⟨4, true⟩]
      = [⟨2, 100⟩, ⟨3, 200⟩, ⟨4, 300⟩] := by
  decide

/-- C6, amended: when three card elements `a`, `b`, `c` are, in this order,
all the children of their parent and intersect in the same batch, the
timers the observer callback sets for them have the delays 0, 100 and 200
(and no other delay); an intersecting element without one of the three card
classes is revealed by the callback itself and gets no timer. -/
theorem stagger_delays_of_sole_children (st : AnimState) (entries : List Entry)
    (p a b c : Nat)
    (hchildren : childrenOf st.page p = [a, b, c])
    (hcards : ∀ t ∈ [a, b, c], (st.page[t]?).any isCard = true)
    (hbatch : ∀ t ∈ [a, b, c], (⟨t, true⟩ : Entry) ∈ entries) :
    ((⟨a, 0⟩ : RevealTimer) ∈ scheduledBy st entries ∧
      (⟨b, 100⟩ : RevealTimer) ∈ scheduledBy st entries ∧
      (⟨c, 200⟩ : RevealTimer) ∈ scheduledBy st entries) ∧
    (∀ tm ∈ scheduledBy st entries,
      (tm.target = a → tm.delay = 0) ∧ (tm.target = b → tm.delay = 100) ∧
      (tm.target = c → tm.delay = 200)) ∧
    (∀ e ∈ entries, e.isIntersecting = true →
      (st.page[e.target]?).any (fun el => !isCard el) = true →
      isRevealed (observerCallback st entries) e.target = true ∧
      ∀ tm ∈ scheduledBy st entries, tm.target ≠ e.target) := by
  have hnd : [a, b, c].Nodup := hchildren ▸ nodup_childrenOf st.page p
  simp only [List.nodup_cons, List.mem_cons, List.mem_singleton, not_or, List.not_mem_nil,
    not_false_eq_true, List.nodup_nil, and_true] at hnd
  obtain ⟨⟨hab, hac⟩, hbc⟩ := hnd
  have hia : (childrenOf st.page p).indexOf a * 100 = 0 := by
    rw [hchildren]
    simp [List.indexOf_cons]
  have hib : (childrenOf st.page p).indexOf b * 100 = 100 := by
    rw [hchildren]
    simp [List.indexOf_cons, hab]
  have hic : (childrenOf st.page p).indexOf c * 100 = 200 := by
    rw [hchildren]
    simp [List.indexOf_cons, hac, hbc]
  have hma : a ∈ childrenOf st.page p := by rw [hchildren]; simp
  have hmb : b ∈ childrenOf st.page p := by rw [hchildren]; simp
  have hmc : c ∈ childrenOf st.page p := by rw [hchildren]; simp
  refine ⟨⟨?_, ?_, ?_⟩, ?_, ?_⟩
  · have := scheduled_of_intersecting_child st entries p a hma (hcards a (by simp))
      (hbatch a (by simp))
    rwa [hia] at this
  · have := scheduled_of_intersecting_child st entries p b hmb (hcards b (by simp))
      (hbatch b (by simp))
    rwa [hib] at this
  · have := scheduled_of_intersecting_child st entries p c hmc (hcards c (by simp))
      (hbatch c (by simp))
    rwa [hic] at this
  · intro tm htm
    refine ⟨fun h => ?_, fun h => ?_, fun h => ?_⟩
    · rw [delay_of_scheduled_child st entries p a hma tm htm h, hia]
    · rw [delay_of_scheduled_child st entries p b hmb tm htm h, hib]
    · rw [delay_of_scheduled_child st entries p c hmc tm htm h, hic]
  · intro e he hint hnc
    exact ⟨isRevealed_observerCallback_notCard st entries e he hint hnc,
      no_timer_for_notCard st entries e.target hnc⟩

/-- Witness of C6 amended: three `organizer-card` elements (1, 2, 3) are all
the children of element 0; a `subsection` (element 4) intersects in the same
batch. -/
theorem stagger_delays_of_sole_children_witness :
    scheduledBy
        (initAnimations false
          [⟨[], 9, "", "", ""⟩, ⟨["organizer-card"], 0, "", "", ""⟩,
            ⟨["organizer-card"], 0, "", "", ""⟩, ⟨["organizer-card"], 0, "", "", ""⟩,
            ⟨["subsection"], 9, "", "", ""⟩])
        [⟨4, true⟩, ⟨1, true⟩, ⟨2, true⟩, ⟨3, true⟩]
      = [⟨1, 0⟩, ⟨2, 100⟩, ⟨3, 200⟩] ∧
    (⟨1, 0⟩ : RevealTimer) ∈ scheduledBy
        (initAnimations false
          [⟨[], 9, "", "", ""⟩, ⟨["organizer-card"], 0, "", "", ""⟩,
            ⟨["organizer-card"], 0, "", "", ""⟩, ⟨["organizer-card"], 0, "", "", ""⟩,
            ⟨["subsection"], 9, "", "", ""⟩])
        [⟨4, true⟩, ⟨1, true⟩, ⟨2, true⟩, ⟨3, true⟩] :=
  ⟨by decide,
   (stagger_delays_of_sole_children
      (initAnimations false
        [⟨[], 9, "", "", ""⟩, ⟨["organizer-card"], 0, "", "", ""⟩,
          ⟨["organizer-card"], 0, "", "", ""⟩, ⟨["organizer-card"], 0, "", "", ""⟩,
          ⟨["subsection"], 9, "", "", ""⟩])
      [⟨4, true⟩, ⟨1, true⟩, ⟨2, true⟩, ⟨3, true⟩] 0 1 2 3
      (by decide) (by decide) (by decide)).1.1⟩

/-- C7: when the reduced-motion preference matches, `initAnimations` leaves
the page (every opacity, transform and transition) unchanged, constructs no
observer and observes no element; no deliverable event changes the page
afterwards. -/
theorem reduced_motion_skips_setup (page : List Element) :
    (initAnimations true page).page = page ∧
    (initAnimations true page).observerConstructed = false ∧
    (initAnimations true page).observed = [] ∧
    (initAnimations true page).timers = [] ∧
    ∀ events : List AnimEvent, deliverable (initAnimations true page) events = true →
      (animRun (initAnimations true page) events).page = page := by
  refine ⟨rfl, rfl, rfl, rfl, ?_⟩
  intro events hdel
  rw [animRun_of_idle events (initAnimations true page) rfl rfl hdel]
  rfl

/-- Witness of C7: a page with a card; an empty batch and a timer event
leave it as it was. -/
theorem reduced_motion_skips_setup_witness :
    (animRun (initAnimations true [⟨["speaker-card"], 3, "", "", ""⟩])
      [.batch [], .timer 0]).page = [⟨["speaker-card"], 3, "", "", ""⟩] :=
  (reduced_motion_skips_setup [⟨["speaker-card"], 3, "", "", ""⟩]).2.2.2.2
    [.batch [], .timer 0] (by decide)

/-! ## Lemmas on the debounced resize handling -/

theorem armed_first (nav : NavState) (t : Nat) :
    armed nav t (resizeEvent (resizeInit nav) t) :=
  ⟨0, rfl, rfl, rfl, rfl, rfl⟩

theorem advanceTo_armed_early (nav : NavState) (t now : Nat) (st : ResizeState)
    (h : armed nav t st) (hnow : now < t + 250) : advanceTo now st = st := by
  obtain ⟨id, hp, _, _, _, _⟩ := h
  have hlt : ¬ (t + 250 ≤ now) := by omega
  simp [advanceTo, hp, fireDue, hlt]

theorem armed_next (nav : NavState) (t now : Nat) (st : ResizeState)
    (h : armed nav t st) (hnow : now < t + 250) :
    armed nav now (resizeEvent st now) := by
  unfold resizeEvent
  rw [advanceTo_armed_early nav t now st h hnow]
  obtain ⟨id, hp, hto, hinv, hsd, hnav⟩ := h
  refine ⟨st.nextId, ?_, rfl, hinv, hsd, hnav⟩
  simp [executedFunction, hp, hto, clearTimeout]

theorem armed_burst (nav : NavState) (rest : List Nat) (t last : Nat) (st : ResizeState)
    (h : armed nav t st) (hburst : isBurst (t :: rest) = true)
    (hlast : (t :: rest).getLast? = some last) :
    armed nav last (rest.foldl resizeEvent st) := by
  induction rest generalizing t st with
  | nil =>
    simp at hlast
    subst hlast
    exact h
  | cons u rest ih =>
    simp only [isBurst, Bool.and_eq_true, decide_eq_true_eq] at hburst
    obtain ⟨⟨_, hu⟩, hrest⟩ := hburst
    rw [List.getLast?_cons_cons] at hlast
    rw [List.foldl_cons]
    exact ih u _ (armed_next nav t u st h hu) hrest hlast

theorem advanceTo_armed_late (nav : NavState) (t now : Nat) (st : ResizeState)
    (h : armed nav t st) (hnow : t + 250 ≤ now) :
    (advanceTo now st).invocations = [t + 250] ∧
    (advanceTo now st).scrollDispatched
      = (if nav.navItems.any NavItem.isActive then [t + 250] else []) ∧
    (advanceTo now st).pending = [] := by
  obtain ⟨id, hp, hto, hinv, hsd, hnav⟩ := h
  subst hnav
  by_cases hact : st.nav.navItems.any NavItem.isActive = true
  · simp [advanceTo, hp, fireDue, hnow, later, resizeHandler, clearTimeout, hinv, hsd, hact]
  · simp [advanceTo, hp, fireDue, hnow, later, resizeHandler, clearTimeout, hinv, hsd, hact]

/-! ## Claims on the debounced resize handling -/

/-- C8: for a burst of `N ≥ 1` resize events, each following the previous one
by less than 250, observed at any later time `now`: the function wrapped by
`debounce(func, 250)` has been invoked exactly once, at 250 after the last
event, if `now` has reached that time, and not at all before; when it runs
it dispatches a scroll event exactly if some navigation link carries
`active`; no timer is left pending afterwards. -/
theorem debounce_burst_invoked_once (nav : NavState) (events : List Nat) (last now : Nat)
    (hburst : isBurst events = true) (hlast : events.getLast? = some last) :
    (advanceTo now (events.foldl resizeEvent (resizeInit nav))).invocations
      = (if last + 250 ≤ now then [last + 250] else []) ∧
    (advanceTo now (events.foldl resizeEvent (resizeInit nav))).scrollDispatched
      = (if last + 250 ≤ now ∧ nav.navItems.any NavItem.isActive = true
          then [last + 250] else []) ∧
    (last + 250 ≤ now →
      (advanceTo now (events.foldl resizeEvent (resizeInit nav))).pending = []) := by
  cases events with
  | nil => simp at hlast
  | cons t rest =>
    rw [List.foldl_cons]
    have harmed := armed_burst nav rest t last _ (armed_first nav t) hburst hlast
    by_cases hnow : last + 250 ≤ now
    · obtain ⟨h1, h2, h3⟩ := advanceTo_armed_late nav last now _ harmed hnow
      refine ⟨?_, ?_, fun _ => h3⟩
      · rw [h1, if_pos hnow]
      · rw [h2]
        by_cases hact : nav.navItems.any NavItem.isActive = true
        · simp [hact, hnow]
        · simp [hact]
    · have hearly := advanceTo_armed_early nav last now _ harmed (by omega)
      rw [hearly]
      obtain ⟨_, _, _, hinv, hsd, _⟩ := harmed
      refine ⟨?_, ?_, fun h => absurd h hnow⟩
      · rw [hinv, if_neg hnow]
      · rw [hsd]
        simp [hnow]

/-- Witness of C8: three resize events at times 10, 100 and 300; at time
1000 the function has run once, at 550, and has dispatched a scroll event
because a link is active. -/
theorem debounce_burst_invoked_once_witness :
    (advanceTo 1000 ([10, 100, 300].foldl resizeEvent
        (resizeInit ⟨[⟨some "#a", ["active"]⟩], false, 0⟩))).invocations = [550] ∧
    (advanceTo 1000 ([10, 100, 300].foldl resizeEvent
        (resizeInit ⟨[⟨some "#a", ["active"]⟩], false, 0⟩))).scrollDispatched = [550] :=
  ⟨(debounce_burst_invoked_once ⟨[⟨some "#a", ["active"]⟩], false, 0⟩ [10, 100, 300]
      300 1000 (by decide) (by decide)).1,
   (debounce_burst_invoked_once ⟨[⟨some "#a", ["active"]⟩], false, 0⟩ [10, 100, 300]
      300 1000 (by decide) (by decide)).2.1⟩

/-! ## Claims on the schedule table rows -/

/-- C10 at the failing input: on a row without inline styles the `focus`
listener leaves `transition` empty, whereas `mouseenter` sets it to
`transform 0.3s ease`; in every prior state `focus` keeps the transition the
row had, both listeners set the transform to `translateX(8px)`, and
`mouseleave` and `blur` set it back to `translateX(0)`. -/
theorem focus_does_not_set_transition :
    (onFocus ⟨"", "", "", ""⟩).transition = "" ∧
    (onMouseEnter ⟨"", "", "", ""⟩).transition = "transform 0.3s ease" ∧
    ∀ row : RowStyle,
      (onFocus row).transition = row.transition ∧
      (onFocus row).transform = "translateX(8px)" ∧
      (onMouseEnter row).transform = "translateX(8px)" ∧
      (onMouseEnter row).transition = "transform 0.3s ease" ∧
      (onMouseLeave row).transform = "translateX(0)" ∧
      (onBlur row).transform = "translateX(0)" :=
  ⟨rfl, rfl, fun _ => ⟨rfl, rfl, rfl, rfl, rfl, rfl⟩⟩

end Script
